import Mathlib

/-!
Verification of the GreenCare multi-agent orchestration layer
(`orchestrator.py`, `database.py`, `app.py`) against its specification.

Modelling conventions for the shallow embedding:
* Python strings are Lean `String`s; `pat in s`, `s.strip()` and
  `s.replace(pat, "")` are re-implemented below over `List Char` so that every
  definition reduces in the kernel (`pyIn`, `pyStrip`, `pyReplaceWithEmpty`).
* Python `dict`s produced from database rows become Lean structures; a field
  the code truthiness-checks and that can be `None` becomes an `Option`.
* Monetary floats are modelled as integer cents; `f"{x:,.2f}"` becomes
  `formatMoney`.
* The remote agent gateway and the SQLite store are external effects: they are
  modelled as explicit oracles (`ArkEnv`, `DBManager`) passed to the embedded
  functions, and each embedded orchestration step also returns the ordered
  trace of external events it performs (`Event`).
* Transport-level exceptions of the `requests` library (caught at the end of
  `ark_caller`) are not modelled: the oracle supplies a status code and payload
  for every HTTP request.
-/

/-- Whitespace characters stripped by Python `str.strip()` (ASCII subset). -/
def pyWsChar (c : Char) : Bool :=
  c == ' ' || c == '\t' || c == '\n' || c == '\r' || c == '\x0b' || c == '\x0c'

/-- Model of Python `str.strip()`: drop leading and trailing whitespace. -/
def pyStrip (s : String) : String :=
  ⟨((s.data.dropWhile pyWsChar).reverse.dropWhile pyWsChar).reverse⟩

/-- Helper for Python `pat in s`: does `pat` occur as a contiguous run of `l`? -/
def listContainsInfix (pat : List Char) : List Char → Bool
  | [] => pat.isEmpty
  | c :: rest => pat.isPrefixOf (c :: rest) || listContainsInfix pat rest

/-- Model of Python `pat in s` (case-sensitive substring search). -/
def pyIn (pat s : String) : Bool :=
  listContainsInfix pat.data s.data

/-- Fuelled worker for `pyReplaceWithEmpty`; the fuel is the string length, so
it never runs out when the pattern is non-empty. -/
def pyRemoveAux (pat : List Char) : Nat → List Char → List Char
  | _, [] => []
  | 0, l => l
  | fuel + 1, c :: rest =>
    if pat.isPrefixOf (c :: rest) then
      pyRemoveAux pat fuel (List.drop (pat.length - 1) rest)
    else
      c :: pyRemoveAux pat fuel rest

/-- Model of Python `s.replace(pat, "")`: delete every non-overlapping
occurrence of `pat`, scanning left to right. -/
def pyReplaceWithEmpty (s pat : String) : String :=
  if pat = "" then s else ⟨pyRemoveAux pat.data s.data.length s.data⟩

/-- Two-digit zero padding, for date and money rendering. -/
def pad2 (n : Nat) : String :=
  if n < 10 then "0" ++ toString n else toString n

/-- Insert thousands separators into a digit string, as `f"{x:,.2f}"` does. -/
def insertCommas (s : String) : String :=
  let n := s.data.length
  ⟨(((List.range n).zip s.data).map (fun p =>
      if p.1 ≠ 0 ∧ (n - p.1) % 3 = 0 then [',', p.2] else [p.2])).flatten⟩

/-- Model of Python `f"{x:,.2f}"` where the float `x` is represented as a
signed number of cents. -/
def formatMoney (cents : Int) : String :=
  let sign := if cents < 0 then "-" else ""
  let a := cents.natAbs
  sign ++ insertCommas (toString (a / 100)) ++ "." ++ pad2 (a % 100)

/-! ## Gateway client (`ark_caller` in orchestrator.py, lines 431-506) -/

/-- One `{role, content}` turn of a serialized transcript, as produced by
`json.loads` on the `raw` payload; a missing key is `none`. -/
structure Turn where
  role : Option String
  content : Option String
deriving DecidableEq, Repr

/-- One entry of the `responses` list of a gateway poll payload.  `raw` and
`content` are `none` when the key is absent (or JSON null). -/
structure RespEntry where
  raw : Option String
  content : Option String
deriving DecidableEq, Repr

/-- One `GET {base}/queries/{id}` poll observation: the HTTP status code and,
from the JSON body, `status.phase` and `status.responses`. -/
structure PollResult where
  statusCode : Nat
  phase : Option String
  responses : List RespEntry
deriving Repr

/-- Extraction of the response text once a poll reports phase `done`
(orchestrator.py lines 481-498).  `parse` models `json.loads` restricted to
transcripts: it returns `none` when the payload is not valid JSON or not an
array of objects (the bare `except` swallows those failures). -/
def extractDone (parse : String → Option (List Turn)) (responses : List RespEntry) : String :=
  match responses with
  | [] => "No response from agent."
  | r :: _ =>
    match r.raw with
    | none => r.content.getD "Empty response"
    | some raw =>
      if raw = "" then r.content.getD "Empty response"
      else
        match parse raw with
        | some msgs =>
          match msgs.find? (fun m => m.role == some "assistant") with
          | some m => pyStrip (m.content.getD "")
          | none => pyStrip raw
        | none => pyStrip raw

/-- Instrumented outcome of the poll loop: the returned text, the number of
`GET` requests issued, and the sleep durations (milliseconds) in order. -/
structure PollOutcome where
  result : String
  pollCount : Nat
  sleeps : List Nat
deriving DecidableEq, Repr

/-- The poll loop of `ark_caller` (orchestrator.py lines 471-503): at each
attempt sleep 1.0s (attempts 0-4) or 1.5s, issue a `GET`, skip non-200
responses, stop on phase `done`/`failed`/`cancelled`, and report a timeout
when the attempt budget is exhausted.  `attempt` is the index of the next
attempt and the second argument the number of attempts left. -/
def arkPollLoop (parse : String → Option (List Turn)) (polls : Nat → PollResult) :
    Nat → Nat → PollOutcome
  | _, 0 => ⟨"Agent timeout - please try again.", 0, []⟩
  | attempt, n + 1 =>
    let slp := if attempt < 5 then 1000 else 1500
    let p := polls attempt
    if p.statusCode ≠ 200 then
      let rest := arkPollLoop parse polls (attempt + 1) n
      ⟨rest.result, rest.pollCount + 1, slp :: rest.sleeps⟩
    else if p.phase == some "done" then
      ⟨extractDone parse p.responses, 1, [slp]⟩
    else if p.phase == some "failed" || p.phase == some "cancelled" then
      ⟨"Agent failed to process request.", 1, [slp]⟩
    else
      let rest := arkPollLoop parse polls (attempt + 1) n
      ⟨rest.result, rest.pollCount + 1, slp :: rest.sleeps⟩

/-- Environment observed by one `ark_caller` invocation: the agent-id lookup
result, the status code of the `POST {base}/queries/` submit, and the poll
observations by attempt index. -/
structure ArkEnv where
  agentId : Option String
  submitStatus : Nat
  polls : Nat → PollResult

/-- Instrumented result of `ark_caller`: returned text plus the counts of
HTTP requests issued. -/
structure ArkCallOutcome where
  result : String
  submitCount : Nat
  pollCount : Nat
  sleeps : List Nat
deriving DecidableEq, Repr

/-- The synchronous gateway caller `ark_caller` (orchestrator.py lines
431-506): unknown agent type short-circuits; a submit status outside
{200, 201} returns the creation error with no polling; otherwise the bounded
poll loop runs with 40 attempts. -/
def ark_caller (parse : String → Option (List Turn)) (agent_type : String)
    (env : ArkEnv) : ArkCallOutcome :=
  match env.agentId with
  | none => ⟨"Error: Unknown agent type: " ++ agent_type, 0, 0, []⟩
  | some _ =>
    if env.submitStatus = 200 ∨ env.submitStatus = 201 then
      let po := arkPollLoop parse env.polls 0 40
      ⟨po.result, 1, po.pollCount, po.sleeps⟩
    else
      ⟨"Error creating query: " ++ toString env.submitStatus, 1, 0, []⟩

/-- A poll observation on which the loop stops: HTTP 200 and a terminal
phase. -/
def isTerminalPoll (p : PollResult) : Bool :=
  p.statusCode == 200 &&
    (p.phase == some "done" || p.phase == some "failed" || p.phase == some "cancelled")

/-- Index of the first terminal poll among the first `n` attempts. -/
def firstTerminal (polls : Nat → PollResult) (n : Nat) : Option Nat :=
  (List.range n).find? (fun i => isTerminalPoll (polls i))

/-- Text returned for a terminal poll observation. -/
def pollVerdict (parse : String → Option (List Turn)) (p : PollResult) : String :=
  if p.phase == some "done" then extractDone parse p.responses
  else "Agent failed to process request."

/-- Sleep duration (milliseconds) before poll attempt `i`. -/
def sleepAt (i : Nat) : Nat :=
  if i < 5 then 1000 else 1500

/-! ## Data model of the user context snapshot (orchestrator.py lines 89-152) -/

/-- A calendar date as the `datetime.date` components used by the code. -/
structure PDate where
  year : Nat
  month : Nat
  day : Nat
deriving DecidableEq, Repr

/-- Four-digit zero padding for years. -/
def pad4 (n : Nat) : String :=
  if n < 10 then "000" ++ toString n
  else if n < 100 then "00" ++ toString n
  else if n < 1000 then "0" ++ toString n
  else toString n

/-- Model of `date.isoformat()`: `YYYY-MM-DD`. -/
def isoformat (d : PDate) : String :=
  pad4 d.year ++ "-" ++ pad2 d.month ++ "-" ++ pad2 d.day

/-- Python lexicographic comparison of the `(month, day)` tuples used by
`_calculate_age`. -/
def pairLt (a b : Nat × Nat) : Bool :=
  a.1 < b.1 || (a.1 == b.1 && a.2 < b.2)

/-- `_calculate_age` (orchestrator.py lines 154-160). -/
def calculate_age (today dob : PDate) : Int :=
  (today.year : Int) - (dob.year : Int) -
    (if pairLt (today.month, today.day) (dob.month, dob.day) then 1 else 0)

/-- The `Users` row selected at orchestrator.py lines 99-104; NULLable columns
that the code truthiness-checks are `Option`s. -/
structure UserRow where
  first_name : String
  last_name : String
  email : String
  phone : Option String
  date_of_birth : Option PDate
  gender : Option String
  province : String
  city : String
deriving DecidableEq, Repr

/-- Medical-aid entry of a profile (database.py `get_user_profile`). -/
structure MedicalAidRec where
  scheme_name : String
  plan_type : String
  membership_number : Option String
deriving DecidableEq, Repr

/-- Medical-history entry of a profile. -/
structure ConditionRec where
  condition : String
  status : String
deriving DecidableEq, Repr

/-- Medication entry of a profile. -/
structure MedicationRec where
  name : String
  dosage : String
deriving DecidableEq, Repr

/-- Allergy entry of a profile. -/
structure AllergyRec where
  allergen : String
  severity : String
deriving DecidableEq, Repr

/-- Financial-account entry of a profile; money fields are cents. -/
structure AccountRec where
  currency : String
  monthly_income : Option Int
  monthly_budget : Option Int
deriving DecidableEq, Repr

/-- Result of `SQLiteDBManager.get_user_profile` (database.py lines 286-381). -/
structure Profile where
  medical_aid : Option MedicalAidRec
  medical_history : List ConditionRec
  medications : List MedicationRec
  allergies : List AllergyRec
  financial_accounts : List AccountRec
deriving DecidableEq, Repr

/-- The `location` sub-dict of the structured user data. -/
structure Location where
  province : String
  city : String
  country : String
deriving DecidableEq, Repr

/-- The `personal_details` sub-dict (orchestrator.py lines 116-129). -/
structure PersonalDetails where
  first_name : String
  last_name : String
  email : String
  phone : Option String
  date_of_birth : Option String
  age : Option Int
  gender : Option String
  location : Location
deriving DecidableEq, Repr

/-- The `medical_profile` sub-dict (orchestrator.py lines 130-135). -/
structure MedicalProfile where
  medical_aid : Option MedicalAidRec
  conditions : List ConditionRec
  medications : List MedicationRec
  allergies : List AllergyRec
deriving DecidableEq, Repr

/-- The `financial_profile` sub-dict (orchestrator.py lines 136-138). -/
structure FinancialProfile where
  accounts : List AccountRec
deriving DecidableEq, Repr

/-- The fixed `preferences` sub-dict (orchestrator.py lines 139-142). -/
structure Preferences where
  language : String
  terminology : String
deriving DecidableEq, Repr

/-- The structured user data built by `_retrieve_user_data`
(orchestrator.py lines 114-143). -/
structure UserData where
  user_id : Int
  personal_details : PersonalDetails
  medical_profile : MedicalProfile
  financial_profile : FinancialProfile
  preferences : Preferences
deriving DecidableEq, Repr

/-- Construction of the structured user data from the user row and profile
(orchestrator.py lines 114-143). -/
def mkUserData (today : PDate) (user_id : Int) (row : UserRow) (profile : Profile) : UserData :=
  ⟨user_id,
   ⟨row.first_name, row.last_name, row.email, row.phone,
    row.date_of_birth.map isoformat,
    row.date_of_birth.map (calculate_age today),
    row.gender,
    ⟨row.province, row.city, "South Africa"⟩⟩,
   ⟨profile.medical_aid, profile.medical_history, profile.medications, profile.allergies⟩,
   ⟨profile.financial_accounts⟩,
   ⟨"British English", "Germanic root preferred"⟩⟩

/-! ## Store model (database.py) -/

/-- What `SQLiteDBManager.get_connection` evaluates to when called as a plain
function.  In database.py (lines 22-30) the method is a `@contextmanager`
generator, so the call returns a generator context-manager object, which has
no `cursor()` method; a real `sqlite3` connection does. -/
inductive ConnObject
  | generatorContextManager
  | sqliteConnection
deriving DecidableEq, Repr

/-- Whether attribute lookup of `cursor` on the connection object succeeds. -/
def hasCursorMethod : ConnObject → Bool
  | ConnObject.generatorContextManager => false
  | ConnObject.sqliteConnection => true

/-- Oracle for the store injected into `AgentOrchestrator`: the kind of object
`get_connection()` returns, the `Users` row per user id, and the profile per
user id. -/
structure DBManager where
  connKind : ConnObject
  userRow : Int → Option UserRow
  profile : Int → Profile

/-- The shipped `SQLiteDBManager.get_connection` is a `@contextmanager`
generator function (database.py lines 22-30), so calling it returns a
generator context-manager object. -/
def SQLiteDBManager_connKind : ConnObject := ConnObject.generatorContextManager

/-- `_retrieve_user_data` (orchestrator.py lines 89-152).  When the connection
object has no `cursor()` method the `AttributeError` is swallowed by the
`except` at line 150 and the method returns `None`; otherwise a missing user
row returns `None` and a present row yields the structured user data. -/
def retrieve_user_data (today : PDate) (db : DBManager) (user_id : Int) : Option UserData :=
  match db.connKind with
  | ConnObject.generatorContextManager => none
  | ConnObject.sqliteConnection =>
    match db.userRow user_id with
    | none => none
    | some row => some (mkUserData today user_id row (db.profile user_id))

/-! ## Prompt builders (orchestrator.py lines 231-349) -/

/-- Python `", ".join`. -/
def joinComma (parts : List String) : String :=
  String.intercalate ", " parts

/-- `_build_agent_context` (orchestrator.py lines 231-278): deterministic
rendering of the user-data snapshot.  The `if personal.get("location")` check
of the source is always true because the location dict is always built, so it
is translated as unconditional. -/
def build_agent_context (user_data : UserData) : String :=
  let personal := user_data.personal_details
  let parts1 := ["User: " ++ personal.first_name ++ " " ++ personal.last_name]
  let parts2 := parts1 ++
    (match personal.age with
     | some a => if a ≠ 0 then ["Age: " ++ toString a] else []
     | none => [])
  let parts3 := parts2 ++
    (match personal.gender with
     | some g => if g ≠ "" then ["Gender: " ++ g] else []
     | none => [])
  let loc := personal.location
  let parts4 := parts3 ++
    ["Location: " ++ loc.city ++ ", " ++ loc.province ++ ", " ++ loc.country]
  let medical := user_data.medical_profile
  let parts5 := parts4 ++
    (match medical.medical_aid with
     | some ma =>
       ["\nMedical Aid: " ++ ma.scheme_name ++ " (" ++ ma.plan_type ++ ")"] ++
         (match ma.membership_number with
          | some num => if num ≠ "" then ["Membership: " ++ num] else []
          | none => [])
     | none => [])
  let parts6 := parts5 ++
    (if medical.conditions ≠ [] then
       let active := medical.conditions.filter (fun c => c.status == "Active")
       if active ≠ [] then
         ["Active Conditions: " ++ joinComma (active.map (fun c => c.condition))]
       else []
     else [])
  let parts7 := parts6 ++
    (if medical.medications ≠ [] then
       ["Current Medications: " ++
         joinComma (medical.medications.map (fun m => m.name ++ " (" ++ m.dosage ++ ")"))]
     else [])
  let parts8 := parts7 ++
    (if medical.allergies ≠ [] then
       ["Allergies: " ++
         joinComma (medical.allergies.map (fun a => a.allergen ++ " (" ++ a.severity ++ ")"))]
     else [])
  let financial := user_data.financial_profile
  let parts9 := parts8 ++
    (if financial.accounts ≠ [] then
       (financial.accounts.map (fun acc =>
         (match acc.monthly_income with
          | some v => if v ≠ 0 then
              ["\nMonthly Income: " ++ acc.currency ++ " " ++ formatMoney v]
            else []
          | none => []) ++
         (match acc.monthly_budget with
          | some v => if v ≠ 0 then
              ["Monthly Budget: " ++ acc.currency ++ " " ++ formatMoney v]
            else []
          | none => []))).flatten
     else [])
  String.intercalate "\n" parts9

/-- `_build_health_prompt` (orchestrator.py lines 280-297). -/
def build_health_prompt (user_prompt context : String) : String :=
  "You are a Health Companion assistant operating in South Africa.\n\nCRITICAL LEGAL CONSTRAINTS:\n- You are NOT a registered medical practitioner\n- You CANNOT diagnose conditions\n- You CANNOT prescribe medications or treatments\n- You CAN provide general health information and wellness guidance\n- You MUST recommend users consult registered healthcare professionals for medical advice\n\nUSER CONTEXT:\n"
    ++ context ++ "\n\nUSER QUERY:\n" ++ user_prompt
    ++ "\n\nProvide supportive, informational guidance while strictly adhering to legal constraints."

/-- `_build_financial_prompt` (orchestrator.py lines 299-315). -/
def build_financial_prompt (user_prompt context : String) : String :=
  "You are a Financial Guidance assistant operating in South Africa.\n\nCRITICAL LEGAL CONSTRAINTS:\n- You are NOT a registered financial services provider under FAIS\n- You CANNOT provide specific investment advice or product recommendations\n- You CAN provide general financial literacy and budgeting guidance\n- You MUST recommend users consult licensed financial advisors for financial product advice\n\nUSER CONTEXT:\n"
    ++ context ++ "\n\nUSER QUERY:\n" ++ user_prompt
    ++ "\n\nProvide educational financial guidance while strictly adhering to legal constraints."

/-- `_build_legal_system_prompt` (orchestrator.py lines 317-334). -/
def build_legal_system_prompt : String :=
  "You are a South African Legal Compliance Agent specializing in:\n- National Health Act 61 of 2003\n- Health Professions Act 56 of 1974\n- Allied Health Professions Act\n- Medicine and Related Substances Act\n- Consumer Protection Act 68 of 2008\n- HPCSA and AHPCSA guidelines\n- Financial Advisory and Intermediary Services Act (FAIS)\n\nYOUR ROLE:\nBlock any content that constitutes:\n1. Medical diagnosis, prescription, or treatment by non-registered practitioners\n2. Financial product advice by non-licensed providers\n3. Any practice that violates South African professional registration requirements\n\nBe strict. When uncertain, BLOCK the content."

/-- Rendering of an optional int into an f-string: `None` renders as
`"None"`. -/
def pyOptIntRepr : Option Int → String
  | some a => toString a
  | none => "None"

/-- `_summarize_user_data` (orchestrator.py lines 336-349).  The
`personal.get('age', 'unknown')` default never fires because the `age` key is
always present (possibly `None`), so a missing age renders as `None`. -/
def summarize_user_data (user_data : UserData) : String :=
  let personal := user_data.personal_details
  let medical := user_data.medical_profile
  let base := "User is " ++ pyOptIntRepr personal.age ++ " years old in "
    ++ personal.location.province ++ ", South Africa."
  let withHist := base ++
    (if medical.conditions ≠ [] then " Has medical history on file." else "")
  withHist ++
    (match medical.medical_aid with
     | some _ => " Has medical aid coverage."
     | none => "")

/-- The legal review prompt built inline at orchestrator.py lines 194-212
(the f-string starts and ends with a newline). -/
def build_legal_review_prompt (legal_system_prompt user_prompt health_response financial_response : String) : String :=
  "\n" ++ legal_system_prompt
    ++ "\n\nReview the following outputs for legal compliance:\n\nUSER PROMPT: "
    ++ user_prompt
    ++ "\n\nHEALTH AGENT OUTPUT:\n" ++ health_response
    ++ "\n\nFINANCIAL AGENT OUTPUT:\n" ++ financial_response
    ++ "\n\nINSTRUCTIONS:\n1. Identify any violations of South African medical or financial services law\n2. If violations exist, respond with: \"BLOCKED: [specific violation]\"\n3. If compliant, respond with: \"APPROVED\" followed by any required disclaimers\n4. Be strict - when in doubt, block it\n"

/-- The critic prompt built inline at orchestrator.py lines 359-397. -/
def build_critic_prompt (user_prompt health_response financial_response legal_disclaimer : String) : String :=
  "You are the Language Critic Agent with two critical responsibilities:\n\n1. LANGUAGE REQUIREMENTS:\n   - Rewrite ALL words to Germanic root equivalents where possible\n   - Use British English exclusively (organise, behaviour, centre, licence as noun)\n   - Examples of required changes:\n     * \"utilise\" → \"use\"\n     * \"purchase\" → \"buy\"\n     * \"commence\" → \"begin\"\n     * \"assist\" → \"help\"\n     * \"obtain\" → \"get\"\n     * \"provide\" → \"give\"\n     * \"require\" → \"need\"\n     * \"additional\" → \"further\"\n     * \"medication\" → \"medicine\" (when contextually appropriate)\n\n2. CONTENT VALIDATION:\n   - Critically evaluate every recommendation against the original user prompt\n   - Remove any advice not explicitly requested\n   - Qualify or remove exaggerations\n   - Ensure tone is formal but clear, never patronising\n   - Keep response focused and relevant\n\nORIGINAL USER PROMPT:\n"
    ++ user_prompt
    ++ "\n\nHEALTH AGENT RESPONSE:\n" ++ health_response
    ++ "\n\nFINANCIAL AGENT RESPONSE:\n" ++ financial_response
    ++ "\n\nLEGAL DISCLAIMER:\n" ++ legal_disclaimer
    ++ "\n\nINSTRUCTIONS:\nRewrite the combined response following the language requirements and content validation rules.\nOutput only the final, approved response that will be shown to the user.\n"

/-! ## Orchestrator pipeline (orchestrator.py lines 26-421) -/

/-- An agent-response oracle standing for `_call_agent`
(orchestrator.py lines 406-421): agent type, prompt, session id to the text
the gateway call resolves to.  `ark_caller` always returns a string, and
`response if response else ""` maps the empty string to itself, so the wrapper
is the identity on the oracle's output. -/
abbrev AgentOracle := String → String → String → String

/-- One external side effect performed by the orchestrator, in order. -/
inductive Event
  | retrieveUser (user_id : Int)
  | agentCall (agent_type : String) (prompt : String) (session_id : String)
  | saveMessage (user_id : Int) (agent_type : String) (role : String)
      (content : String) (session_id : String)
deriving DecidableEq, Repr

/-- The dict returned by `_execute_specialist_agents`
(orchestrator.py lines 216-229), keyed by its `legal_blocked` flag. -/
inductive SpecialistResult
  | blockedR (legal_message : String) (details : String)
  | passed (health : String) (financial : String) (legal_disclaimer : String)
deriving DecidableEq, Repr

/-- The fixed user-facing refusal of the blocked branch
(orchestrator.py line 220). -/
def blockedRefusalMsg : String :=
  "I am not permitted to provide that information or recommendation under South African law."

/-- `_execute_specialist_agents` (orchestrator.py lines 162-229), returning
the structured result and the ordered agent calls it issues.  The
`combined_output` dict of lines 187-192 is dead local state and is omitted. -/
def execute_specialist_agents (oracle : AgentOracle) (user_prompt : String)
    (user_data : UserData) (session_id : String) : SpecialistResult × List Event :=
  let context := build_agent_context user_data
  let health_prompt := build_health_prompt user_prompt context
  let financial_prompt := build_financial_prompt user_prompt context
  let health_response := oracle "health" health_prompt session_id
  let financial_response := oracle "financial" financial_prompt session_id
  let legal_review_prompt := build_legal_review_prompt build_legal_system_prompt
    user_prompt health_response financial_response
  let legal_response := oracle "legal" legal_review_prompt session_id
  let events := [Event.agentCall "health" health_prompt session_id,
                 Event.agentCall "financial" financial_prompt session_id,
                 Event.agentCall "legal" legal_review_prompt session_id]
  if pyIn "BLOCKED:" legal_response then
    (SpecialistResult.blockedR blockedRefusalMsg legal_response, events)
  else
    (SpecialistResult.passed health_response financial_response
       (pyStrip (pyReplaceWithEmpty legal_response "APPROVED")), events)

/-- `_execute_critic_agent` (orchestrator.py lines 351-404): builds the critic
prompt and returns the critic text (the `content` key of the returned dict;
`processed_by_critic` is never read). -/
def execute_critic_agent (oracle : AgentOracle) (user_prompt : String)
    (health_response financial_response legal_disclaimer : String)
    (session_id : String) : String × List Event :=
  let critic_prompt :=
    build_critic_prompt user_prompt health_response financial_response legal_disclaimer
  (oracle "critic" critic_prompt session_id,
   [Event.agentCall "critic" critic_prompt session_id])

/-- The terminal result of `process_user_request`: the dicts returned at
orchestrator.py lines 43-46, 57-60 and 79-87.  `errorOut`/`blockedOut` carry
the `message` field; `success` carries `content`, `metadata.processed_by` and
`metadata.timestamp`. -/
inductive Outcome
  | errorOut (message : String)
  | blockedOut (message : String)
  | success (content : String) (processed_by : List String) (timestamp : String)
deriving DecidableEq, Repr

/-- `process_user_request` (orchestrator.py lines 26-87), instrumented with
the ordered trace of external effects.  `today` feeds `_calculate_age` and
`nowIso` stands for `datetime.now().isoformat()`. -/
def process_user_request (today : PDate) (nowIso : String) (oracle : AgentOracle)
    (db : DBManager) (user_id : Int) (user_prompt session_id : String) :
    Outcome × List Event :=
  match retrieve_user_data today db user_id with
  | none =>
    (Outcome.errorOut "Unable to retrieve user information. Please try again.",
     [Event.retrieveUser user_id])
  | some user_data =>
    let sr := execute_specialist_agents oracle user_prompt user_data session_id
    match sr.1 with
    | SpecialistResult.blockedR msg _details =>
      (Outcome.blockedOut msg, Event.retrieveUser user_id :: sr.2)
    | SpecialistResult.passed health_response financial_response legal_disclaimer =>
      let cr := execute_critic_agent oracle user_prompt health_response
        financial_response legal_disclaimer session_id
      (Outcome.success cr.1
         ["Health Agent", "Financial Agent", "Legal Compliance Agent", "Language Critic Agent"]
         nowIso,
       Event.retrieveUser user_id :: sr.2 ++ cr.2 ++
         [Event.saveMessage user_id "Orchestrator" "assistant" cr.1 session_id])

/-! ## Statement helpers naming intermediate values of the pipeline -/

/-- The health response of one specialist round (definitionally the
`health_response` local of `_execute_specialist_agents`). -/
def specialistHealthResponse (oracle : AgentOracle) (user_prompt : String)
    (user_data : UserData) (session_id : String) : String :=
  oracle "health" (build_health_prompt user_prompt (build_agent_context user_data)) session_id

/-- The financial response of one specialist round. -/
def specialistFinancialResponse (oracle : AgentOracle) (user_prompt : String)
    (user_data : UserData) (session_id : String) : String :=
  oracle "financial" (build_financial_prompt user_prompt (build_agent_context user_data)) session_id

/-- The legal review prompt of one specialist round. -/
def specialistLegalPrompt (oracle : AgentOracle) (user_prompt : String)
    (user_data : UserData) (session_id : String) : String :=
  build_legal_review_prompt build_legal_system_prompt user_prompt
    (specialistHealthResponse oracle user_prompt user_data session_id)
    (specialistFinancialResponse oracle user_prompt user_data session_id)

/-- The legal verdict text of one specialist round. -/
def specialistLegalResponse (oracle : AgentOracle) (user_prompt : String)
    (user_data : UserData) (session_id : String) : String :=
  oracle "legal" (specialistLegalPrompt oracle user_prompt user_data session_id) session_id

/-- The disclaimer carried forward on approval. -/
def approvedDisclaimer (oracle : AgentOracle) (user_prompt : String)
    (user_data : UserData) (session_id : String) : String :=
  pyStrip (pyReplaceWithEmpty (specialistLegalResponse oracle user_prompt user_data session_id) "APPROVED")

/-- The critic prompt of the happy path. -/
def happyCriticPrompt (oracle : AgentOracle) (user_prompt : String)
    (user_data : UserData) (session_id : String) : String :=
  build_critic_prompt user_prompt
    (specialistHealthResponse oracle user_prompt user_data session_id)
    (specialistFinancialResponse oracle user_prompt user_data session_id)
    (approvedDisclaimer oracle user_prompt user_data session_id)

/-- The final content of the happy path: the critic text, verbatim. -/
def criticContent (oracle : AgentOracle) (user_prompt : String)
    (user_data : UserData) (session_id : String) : String :=
  oracle "critic" (happyCriticPrompt oracle user_prompt user_data session_id) session_id

/-- Whether an event is a chat-message persistence. -/
def isSaveEvent : Event → Bool
  | Event.saveMessage _ _ _ _ _ => true
  | _ => false

/-- Whether an event is a gateway agent call. -/
def isAgentCallEvent : Event → Bool
  | Event.agentCall _ _ _ => true
  | _ => false

/-- Modelled from the spec: the extraction rule as the spec words it, namely
"array of {role, content} turns, pick the last assistant turn's content",
trimmed.  The source is compared against this for the refinement claim. -/
def lastAssistantContent (msgs : List Turn) : Option String :=
  (msgs.reverse.find? (fun m => m.role == some "assistant")).map
    (fun m => pyStrip (m.content.getD ""))

/-! ## Concrete inputs used by witnesses and counterexamples -/

/-- A serialized two-assistant-turn transcript, as `json.loads` would read it. -/
def demoRaw : String :=
  "[\x7b\"role\": \"assistant\", \"content\": \"A\"\x7d, \x7b\"role\": \"assistant\", \"content\": \"B\"\x7d]"

/-- The transcript `json.loads demoRaw` denotes. -/
def demoTranscript : List Turn :=
  [⟨some "assistant", some "A"⟩, ⟨some "assistant", some "B"⟩]

/-- A `json.loads` oracle defined exactly on `demoRaw`. -/
def demoParse : String → Option (List Turn) :=
  fun s => if s = demoRaw then some demoTranscript else none

/-- A done poll carrying the two-assistant transcript. -/
def demoDonePoll : PollResult := ⟨200, some "done", [⟨some demoRaw, none⟩]⟩

/-- Gateway environment whose first poll is the done poll above. -/
def demoArkEnv : ArkEnv := ⟨some "legal-compliance-agent", 200, fun _ => demoDonePoll⟩

/-- Gateway environment that never reaches a terminal phase. -/
def demoArkEnvRunning : ArkEnv :=
  ⟨some "health-companion-agent", 200, fun _ => ⟨200, some "running", []⟩⟩

/-- Gateway environment whose submit is rejected with HTTP 500. -/
def demoArkEnvRejected : ArkEnv :=
  ⟨some "health-companion-agent", 500, fun _ => ⟨200, some "done", []⟩⟩

/-- Gateway environment delivering an unparseable raw payload. -/
def demoArkEnvPlain : ArkEnv :=
  ⟨some "financial-coach-agent", 201, fun _ => ⟨200, some "done", [⟨some " plain text ", none⟩]⟩⟩

/-- A fixed current date for age computation. -/
def demoToday : PDate := ⟨2026, 10, 12⟩

/-- A concrete `Users` row. -/
def demoRow : UserRow :=
  ⟨"Thandi", "Mokoena", "thandi@example.com", none, some ⟨1990, 5, 20⟩, none, "Gauteng", "Pretoria"⟩

/-- A concrete empty profile (no conditions or medications). -/
def demoProfile : Profile := ⟨none, [], [], [], []⟩

/-- A store whose connection object supports `cursor()` and knows user 1. -/
def demoDb : DBManager :=
  ⟨ConnObject.sqliteConnection, fun _ => some demoRow, fun _ => demoProfile⟩

/-- A store with a working connection but no retrievable user record. -/
def demoDbMissing : DBManager :=
  ⟨ConnObject.sqliteConnection, fun _ => none, fun _ => demoProfile⟩

/-- The shipped store: `get_connection` is a context-manager generator. -/
def demoDbShipped : DBManager :=
  ⟨SQLiteDBManager_connKind, fun _ => some demoRow, fun _ => demoProfile⟩

/-- The user data the working store yields for user 1. -/
def demoUserData : UserData := mkUserData demoToday 1 demoRow demoProfile

/-- An agent oracle whose legal verdict blocks. -/
def demoBlockedOracle : AgentOracle := fun agent_type _prompt _session_id =>
  if agent_type = "legal" then "BLOCKED: cannot give investment advice"
  else "placeholder text"

/-- An agent oracle enacting the happy-path scenario of the spec. -/
def demoHappyOracle : AgentOracle := fun agent_type _prompt _session_id =>
  if agent_type = "legal" then "APPROVED No further disclaimer needed."
  else if agent_type = "critic" then "Here is some budgeting guidance."
  else if agent_type = "health" then "Health placeholder text."
  else "Financial placeholder text."

/-! ## Poll-loop lemmas -/

/-- A terminal poll stops the loop with the poll's verdict after one attempt. -/
theorem arkPollLoop_terminal (parse : String → Option (List Turn))
    (polls : Nat → PollResult) (a n : Nat)
    (h : isTerminalPoll (polls a) = true) :
    arkPollLoop parse polls a (n + 1) = ⟨pollVerdict parse (polls a), 1, [sleepAt a]⟩ := by
  have h' := h
  simp only [isTerminalPoll, Bool.and_eq_true, Bool.or_eq_true, beq_iff_eq] at h'
  obtain ⟨h200, hph⟩ := h'
  simp only [arkPollLoop, sleepAt]
  rw [if_neg (not_not_intro h200)]
  by_cases hd : ((polls a).phase == some "done") = true
  · rw [if_pos hd]
    simp only [pollVerdict]
    rw [if_pos hd]
  · rw [if_neg hd]
    have hfc : (((polls a).phase == some "failed") || ((polls a).phase == some "cancelled")) = true := by
      rcases hph with (h1 | h2) | h3
      · exact absurd (by rw [h1]; decide) hd
      · rw [h2]
        decide
      · rw [h3]
        decide
    rw [if_pos hfc]
    simp only [pollVerdict]
    rw [if_neg hd]

/-- A non-terminal poll consumes one attempt and continues. -/
theorem arkPollLoop_cont (parse : String → Option (List Turn))
    (polls : Nat → PollResult) (a n : Nat)
    (h : isTerminalPoll (polls a) = false) :
    arkPollLoop parse polls a (n + 1) =
      ⟨(arkPollLoop parse polls (a + 1) n).result,
       (arkPollLoop parse polls (a + 1) n).pollCount + 1,
       sleepAt a :: (arkPollLoop parse polls (a + 1) n).sleeps⟩ := by
  simp only [arkPollLoop, sleepAt]
  by_cases h200 : (polls a).statusCode = 200
  · rw [if_neg (not_not_intro h200)]
    simp only [isTerminalPoll] at h
    simp [h200] at h
    obtain ⟨⟨hd, hf⟩, hcnl⟩ := h
    rw [if_neg (by simp [hd]), if_neg (by simp [hf, hcnl])]
  · rw [if_pos h200]

/-- The loop issues at most as many polls as it has attempts. -/
theorem arkPollLoop_count_le (parse : String → Option (List Turn))
    (polls : Nat → PollResult) : ∀ (n a : Nat), (arkPollLoop parse polls a n).pollCount ≤ n := by
  intro n
  induction n with
  | zero =>
    intro a
    exact Nat.le_refl 0
  | succ n ih =>
    intro a
    by_cases ht : isTerminalPoll (polls a) = true
    · rw [arkPollLoop_terminal parse polls a n ht]
      exact Nat.succ_le_succ (Nat.zero_le n)
    · rw [arkPollLoop_cont parse polls a n (Bool.eq_false_iff.mpr ht)]
      exact Nat.succ_le_succ (ih (a + 1))

/-- The sleep trace follows the per-attempt schedule. -/
theorem arkPollLoop_sleeps (parse : String → Option (List Turn))
    (polls : Nat → PollResult) : ∀ (n a : Nat),
    (arkPollLoop parse polls a n).sleeps =
      (List.range' a (arkPollLoop parse polls a n).pollCount).map sleepAt := by
  intro n
  induction n with
  | zero =>
    intro a
    rfl
  | succ n ih =>
    intro a
    by_cases ht : isTerminalPoll (polls a) = true
    · rw [arkPollLoop_terminal parse polls a n ht]
      simp [List.range'_one]
    · rw [arkPollLoop_cont parse polls a n (Bool.eq_false_iff.mpr ht)]
      rw [List.range'_succ]
      simp [ih (a + 1)]

/-- The loop stops exactly at the first terminal poll, and times out when
there is none. -/
theorem arkPollLoop_find (parse : String → Option (List Turn))
    (polls : Nat → PollResult) : ∀ (n a : Nat),
    (∀ i, (List.range' a n).find? (fun j => isTerminalPoll (polls j)) = some i →
      (arkPollLoop parse polls a n).pollCount + a = i + 1 ∧
      (arkPollLoop parse polls a n).result = pollVerdict parse (polls i)) ∧
    ((List.range' a n).find? (fun j => isTerminalPoll (polls j)) = none →
      (arkPollLoop parse polls a n).pollCount = n ∧
      (arkPollLoop parse polls a n).result = "Agent timeout - please try again.") := by
  intro n
  induction n with
  | zero =>
    intro a
    constructor
    · intro i hi
      rw [List.range'_zero] at hi
      simp at hi
    · intro _
      exact ⟨rfl, rfl⟩
  | succ n ih =>
    intro a
    rw [List.range'_succ]
    by_cases ht : isTerminalPoll (polls a) = true
    · rw [@List.find?_cons_of_pos Nat (fun j => isTerminalPoll (polls j)) a
        (List.range' (a + 1) n) ht]
      constructor
      · intro i hi
        have hai : a = i := by injection hi
        subst hai
        rw [arkPollLoop_terminal parse polls a n ht]
        dsimp only
        exact ⟨by omega, rfl⟩
      · intro hnone
        simp at hnone
    · rw [@List.find?_cons_of_neg Nat (fun j => isTerminalPoll (polls j)) a
        (List.range' (a + 1) n) ht]
      rw [arkPollLoop_cont parse polls a n (Bool.eq_false_iff.mpr ht)]
      obtain ⟨ih1, ih2⟩ := ih (a + 1)
      constructor
      · intro i hi
        obtain ⟨hc, hr⟩ := ih1 i hi
        dsimp only
        exact ⟨by omega, hr⟩
      · intro hnone
        obtain ⟨hc, hr⟩ := ih2 hnone
        dsimp only
        exact ⟨by omega, hr⟩

/-- An accepted submit hands the call over to the 40-attempt poll loop. -/
theorem ark_caller_accepted (parse : String → Option (List Turn)) (agent_type : String)
    (env : ArkEnv) (aid : String)
    (hid : env.agentId = some aid)
    (hsubmit : env.submitStatus = 200 ∨ env.submitStatus = 201) :
    ark_caller parse agent_type env =
      ⟨(arkPollLoop parse env.polls 0 40).result, 1,
       (arkPollLoop parse env.polls 0 40).pollCount,
       (arkPollLoop parse env.polls 0 40).sleeps⟩ := by
  simp only [ark_caller, hid]
  rw [if_pos hsubmit]

/-- When the very first poll is done, the call returns the extracted text. -/
theorem ark_caller_first_poll_done (parse : String → Option (List Turn))
    (agent_type : String) (env : ArkEnv) (aid : String) (rs : List RespEntry)
    (hid : env.agentId = some aid)
    (hsubmit : env.submitStatus = 200 ∨ env.submitStatus = 201)
    (hpoll : env.polls 0 = ⟨200, some "done", rs⟩) :
    (ark_caller parse agent_type env).result = extractDone parse rs := by
  rw [ark_caller_accepted parse agent_type env aid hid hsubmit]
  dsimp only
  have h40 : (40 : Nat) = 39 + 1 := rfl
  rw [h40, arkPollLoop_terminal parse env.polls 0 39 (by rw [hpoll]; rfl)]
  dsimp only [pollVerdict]
  rw [hpoll]
  simp

/-- The specialist round in closed form: the gate decision on the legal
verdict paired with the fixed health-financial-legal call trace. -/
theorem execute_specialist_agents_eq (oracle : AgentOracle) (up : String)
    (ud : UserData) (sid : String) :
    execute_specialist_agents oracle up ud sid =
      ((if pyIn "BLOCKED:" (specialistLegalResponse oracle up ud sid) then
          SpecialistResult.blockedR blockedRefusalMsg (specialistLegalResponse oracle up ud sid)
        else
          SpecialistResult.passed (specialistHealthResponse oracle up ud sid)
            (specialistFinancialResponse oracle up ud sid)
            (approvedDisclaimer oracle up ud sid)),
       [Event.agentCall "health" (build_health_prompt up (build_agent_context ud)) sid,
        Event.agentCall "financial" (build_financial_prompt up (build_agent_context ud)) sid,
        Event.agentCall "legal" (specialistLegalPrompt oracle up ud sid) sid]) := by
  simp only [execute_specialist_agents, specialistLegalResponse, specialistLegalPrompt,
    specialistHealthResponse, specialistFinancialResponse, approvedDisclaimer]
  by_cases hb : pyIn "BLOCKED:" (oracle "legal" (build_legal_review_prompt build_legal_system_prompt up
      (oracle "health" (build_health_prompt up (build_agent_context ud)) sid)
      (oracle "financial" (build_financial_prompt up (build_agent_context ud)) sid)) sid) = true
  · rw [if_pos hb, if_pos hb]
  · rw [if_neg hb, if_neg hb]

/-! ## Claim theorems -/

/-- Claim C1: for every legal-agent response text, if the text contains the
exact, case-sensitive substring "BLOCKED:" anywhere, the Compliance Gate
evaluates to Blocked regardless of any other content; if the text lacks that
substring, the gate evaluates to Approved and the disclaimer carried forward
equals the response text with every occurrence of the literal word "APPROVED"
removed and surrounding whitespace stripped. -/
theorem compliance_gate_marker_rule (oracle : AgentOracle) (up : String)
    (ud : UserData) (sid : String) :
    (pyIn "BLOCKED:" (specialistLegalResponse oracle up ud sid) = true →
      (execute_specialist_agents oracle up ud sid).1 =
        SpecialistResult.blockedR blockedRefusalMsg (specialistLegalResponse oracle up ud sid)) ∧
    (pyIn "BLOCKED:" (specialistLegalResponse oracle up ud sid) = false →
      (execute_specialist_agents oracle up ud sid).1 =
        SpecialistResult.passed (specialistHealthResponse oracle up ud sid)
          (specialistFinancialResponse oracle up ud sid)
          (pyStrip (pyReplaceWithEmpty (specialistLegalResponse oracle up ud sid) "APPROVED"))) := by
  constructor
  · intro h
    rw [execute_specialist_agents_eq]
    dsimp only
    rw [if_pos h]
  · intro h
    rw [execute_specialist_agents_eq]
    dsimp only
    rw [if_neg (Bool.eq_false_iff.mp h)]
    rfl

/-- Witness for C1: both gate branches exercised at concrete legal verdicts. -/
theorem compliance_gate_marker_rule_witness :
    pyIn "BLOCKED:" (specialistLegalResponse demoBlockedOracle "Should I buy shares?" demoUserData "s1") = true ∧
    (execute_specialist_agents demoBlockedOracle "Should I buy shares?" demoUserData "s1").1 =
      SpecialistResult.blockedR blockedRefusalMsg
        (specialistLegalResponse demoBlockedOracle "Should I buy shares?" demoUserData "s1") ∧
    pyIn "BLOCKED:" (specialistLegalResponse demoHappyOracle "How can I save money this month?" demoUserData "s1") = false ∧
    (execute_specialist_agents demoHappyOracle "How can I save money this month?" demoUserData "s1").1 =
      SpecialistResult.passed
        (specialistHealthResponse demoHappyOracle "How can I save money this month?" demoUserData "s1")
        (specialistFinancialResponse demoHappyOracle "How can I save money this month?" demoUserData "s1")
        (pyStrip (pyReplaceWithEmpty (specialistLegalResponse demoHappyOracle "How can I save money this month?" demoUserData "s1") "APPROVED")) :=
  ⟨by decide,
   (compliance_gate_marker_rule demoBlockedOracle "Should I buy shares?" demoUserData "s1").1 (by decide),
   by decide,
   (compliance_gate_marker_rule demoHappyOracle "How can I save money this month?" demoUserData "s1").2 (by decide)⟩

/-- Claim C2: for every request in which the legal-agent response contains
"BLOCKED:", process_user_request returns the Blocked outcome whose message is
exactly the fixed refusal text, the Critic agent is never invoked for that
request, and no chat message is persisted by the orchestrator for that turn. -/
theorem blocked_short_circuit (today : PDate) (nowIso : String) (oracle : AgentOracle)
    (db : DBManager) (user_id : Int) (up sid : String) (ud : UserData)
    (hud : retrieve_user_data today db user_id = some ud)
    (hb : pyIn "BLOCKED:" (specialistLegalResponse oracle up ud sid) = true) :
    (process_user_request today nowIso oracle db user_id up sid).1 =
      Outcome.blockedOut "I am not permitted to provide that information or recommendation under South African law." ∧
    (∀ p s, Event.agentCall "critic" p s ∉ (process_user_request today nowIso oracle db user_id up sid).2) ∧
    (∀ u a r c s, Event.saveMessage u a r c s ∉ (process_user_request today nowIso oracle db user_id up sid).2) := by
  have hp : process_user_request today nowIso oracle db user_id up sid =
      (Outcome.blockedOut blockedRefusalMsg,
       [Event.retrieveUser user_id,
        Event.agentCall "health" (build_health_prompt up (build_agent_context ud)) sid,
        Event.agentCall "financial" (build_financial_prompt up (build_agent_context ud)) sid,
        Event.agentCall "legal" (specialistLegalPrompt oracle up ud sid) sid]) := by
    simp only [process_user_request, hud]
    rw [execute_specialist_agents_eq]
    dsimp only
    rw [if_pos hb]
  rw [hp]
  refine ⟨rfl, ?_, ?_⟩
  · intro p s
    simp
  · intro u a r c s
    simp

/-- Witness for C2: the blocked scenario of the spec at concrete inputs. -/
theorem blocked_short_circuit_witness :
    retrieve_user_data demoToday demoDb 1 = some demoUserData ∧
    pyIn "BLOCKED:" (specialistLegalResponse demoBlockedOracle "Should I buy shares?" demoUserData "s1") = true ∧
    (process_user_request demoToday "2026-10-12T09:00:00" demoBlockedOracle demoDb 1 "Should I buy shares?" "s1").1 =
      Outcome.blockedOut "I am not permitted to provide that information or recommendation under South African law." :=
  ⟨rfl, by decide,
   (blocked_short_circuit demoToday "2026-10-12T09:00:00" demoBlockedOracle demoDb 1
     "Should I buy shares?" "s1" demoUserData rfl (by decide)).1⟩

/-- Claim C3: for every request where context retrieval yields a snapshot and
the legal response lacks "BLOCKED:", process_user_request returns a Success
outcome whose content is exactly the critic text used verbatim, persists
exactly one chat message with role "assistant" and agentType "Orchestrator"
containing that content, and the metadata processed_by list names all four
agents. -/
theorem happy_path_postcondition (today : PDate) (nowIso : String) (oracle : AgentOracle)
    (db : DBManager) (user_id : Int) (up sid : String) (ud : UserData)
    (hud : retrieve_user_data today db user_id = some ud)
    (hok : pyIn "BLOCKED:" (specialistLegalResponse oracle up ud sid) = false) :
    (process_user_request today nowIso oracle db user_id up sid).1 =
      Outcome.success (criticContent oracle up ud sid)
        ["Health Agent", "Financial Agent", "Legal Compliance Agent", "Language Critic Agent"]
        nowIso ∧
    (process_user_request today nowIso oracle db user_id up sid).2.filter isSaveEvent =
      [Event.saveMessage user_id "Orchestrator" "assistant" (criticContent oracle up ud sid) sid] := by
  have hp : process_user_request today nowIso oracle db user_id up sid =
      (Outcome.success (criticContent oracle up ud sid)
        ["Health Agent", "Financial Agent", "Legal Compliance Agent", "Language Critic Agent"]
        nowIso,
       [Event.retrieveUser user_id,
        Event.agentCall "health" (build_health_prompt up (build_agent_context ud)) sid,
        Event.agentCall "financial" (build_financial_prompt up (build_agent_context ud)) sid,
        Event.agentCall "legal" (specialistLegalPrompt oracle up ud sid) sid,
        Event.agentCall "critic" (happyCriticPrompt oracle up ud sid) sid,
        Event.saveMessage user_id "Orchestrator" "assistant" (criticContent oracle up ud sid) sid]) := by
    simp only [process_user_request, hud]
    rw [execute_specialist_agents_eq]
    dsimp only
    rw [if_neg (Bool.eq_false_iff.mp hok)]
    rfl
  rw [hp]
  exact ⟨rfl, by simp [isSaveEvent]⟩

/-- Witness for C3: the happy-path scenario of the spec at concrete inputs;
the final content is exactly the critic text. -/
theorem happy_path_postcondition_witness :
    retrieve_user_data demoToday demoDb 1 = some demoUserData ∧
    pyIn "BLOCKED:" (specialistLegalResponse demoHappyOracle "How can I save money this month?" demoUserData "s1") = false ∧
    (process_user_request demoToday "2026-10-12T09:00:00" demoHappyOracle demoDb 1 "How can I save money this month?" "s1").1 =
      Outcome.success "Here is some budgeting guidance."
        ["Health Agent", "Financial Agent", "Legal Compliance Agent", "Language Critic Agent"]
        "2026-10-12T09:00:00" := by
  refine ⟨rfl, by decide, ?_⟩
  exact (happy_path_postcondition demoToday "2026-10-12T09:00:00" demoHappyOracle demoDb 1
    "How can I save money this month?" "s1" demoUserData rfl (by decide)).1

/-- Claim C4, counterexample: the claim says the agent caller returns the
content of the LAST assistant turn of a parsed transcript.  On a transcript
with two assistant turns ("A" then "B"), the code (orchestrator.py lines
491-494) returns the FIRST assistant turn "A", while the last assistant turn
holds "B". -/
theorem transcript_extraction_not_last_assistant :
    demoParse demoRaw = some demoTranscript ∧
    lastAssistantContent demoTranscript = some "B" ∧
    (ark_caller demoParse "legal" demoArkEnv).result = "A" ∧
    (ark_caller demoParse "legal" demoArkEnv).result ≠ "B" := by
  refine ⟨by decide, by decide, by decide, by decide⟩

/-- Claim C4 (amended): for every gateway poll response that reaches phase
"done" with a non-empty responses list whose first entry's raw field parses
as a JSON transcript, the agent caller returns the content of the FIRST
assistant turn in that transcript, trimmed of surrounding whitespace. -/
theorem transcript_extraction_first_assistant (parse : String → Option (List Turn))
    (agent_type : String) (env : ArkEnv) (aid raw : String) (r : RespEntry)
    (rest : List RespEntry) (ts : List Turn) (t : Turn)
    (hid : env.agentId = some aid)
    (hsubmit : env.submitStatus = 200 ∨ env.submitStatus = 201)
    (hpoll : env.polls 0 = ⟨200, some "done", r :: rest⟩)
    (hraw : r.raw = some raw) (hne : raw ≠ "")
    (hparse : parse raw = some ts)
    (hfind : ts.find? (fun m => m.role == some "assistant") = some t) :
    (ark_caller parse agent_type env).result = pyStrip (t.content.getD "") := by
  rw [ark_caller_first_poll_done parse agent_type env aid (r :: rest) hid hsubmit hpoll]
  simp [extractDone, hraw, hparse, hfind, hne]

/-- Witness for amended C4: on the two-assistant transcript the caller
returns the first assistant turn's content "A", trimmed. -/
theorem transcript_extraction_first_assistant_witness :
    demoArkEnv.agentId = some "legal-compliance-agent" ∧
    demoArkEnv.submitStatus = 200 ∧
    demoArkEnv.polls 0 = ⟨200, some "done", [⟨some demoRaw, none⟩]⟩ ∧
    demoParse demoRaw = some demoTranscript ∧
    demoTranscript.find? (fun m => m.role == some "assistant") = some ⟨some "assistant", some "A"⟩ ∧
    (ark_caller demoParse "legal" demoArkEnv).result = pyStrip ((some "A").getD "") :=
  ⟨rfl, rfl, rfl, by decide, by decide,
   transcript_extraction_first_assistant demoParse "legal" demoArkEnv "legal-compliance-agent"
     demoRaw ⟨some demoRaw, none⟩ [] demoTranscript ⟨some "assistant", some "A"⟩
     rfl (Or.inl rfl) rfl rfl (by decide) (by decide) (by decide)⟩

/-- Claim C5: a specialist failure or timeout does not abort the pipeline:
whatever texts the health and financial calls resolve to (including error or
timeout strings), the legal call is still issued after both specialist calls,
and both specialist texts are embedded verbatim in the legal review prompt. -/
theorem threaded_failure_policy (oracle : AgentOracle) (up : String)
    (ud : UserData) (sid : String) :
    (execute_specialist_agents oracle up ud sid).2 =
      [Event.agentCall "health" (build_health_prompt up (build_agent_context ud)) sid,
       Event.agentCall "financial" (build_financial_prompt up (build_agent_context ud)) sid,
       Event.agentCall "legal" (specialistLegalPrompt oracle up ud sid) sid] ∧
    (∃ pre mid post, specialistLegalPrompt oracle up ud sid =
      pre ++ specialistHealthResponse oracle up ud sid ++ mid ++
        specialistFinancialResponse oracle up ud sid ++ post) := by
  constructor
  · rw [execute_specialist_agents_eq]
  · refine ⟨"\n" ++ build_legal_system_prompt ++
      "\n\nReview the following outputs for legal compliance:\n\nUSER PROMPT: " ++ up ++
      "\n\nHEALTH AGENT OUTPUT:\n",
      "\n\nFINANCIAL AGENT OUTPUT:\n",
      "\n\nINSTRUCTIONS:\n1. Identify any violations of South African medical or financial services law\n2. If violations exist, respond with: \"BLOCKED: [specific violation]\"\n3. If compliant, respond with: \"APPROVED\" followed by any required disclaimers\n4. Be strict - when in doubt, block it\n", ?_⟩
    simp only [specialistLegalPrompt, build_legal_review_prompt, String.append_assoc]

/-- Claim C6: when context retrieval yields no user record,
process_user_request returns the Error outcome immediately, the only external
event is the single retrieval (no retry), and no gateway agent call is made. -/
theorem context_missing_abort (today : PDate) (nowIso : String) (oracle : AgentOracle)
    (db : DBManager) (user_id : Int) (up sid : String)
    (hrow : db.userRow user_id = none) :
    process_user_request today nowIso oracle db user_id up sid =
      (Outcome.errorOut "Unable to retrieve user information. Please try again.",
       [Event.retrieveUser user_id]) ∧
    (process_user_request today nowIso oracle db user_id up sid).2.filter isAgentCallEvent = [] := by
  have hr : retrieve_user_data today db user_id = none := by
    unfold retrieve_user_data
    cases hc : db.connKind
    · rfl
    · rw [hrow]
  have hp : process_user_request today nowIso oracle db user_id up sid =
      (Outcome.errorOut "Unable to retrieve user information. Please try again.",
       [Event.retrieveUser user_id]) := by
    simp only [process_user_request, hr]
  exact ⟨hp, by rw [hp]; simp [isAgentCallEvent]⟩

/-- Witness for C6: a store with no record for user 1. -/
theorem context_missing_abort_witness :
    demoDbMissing.userRow 1 = none ∧
    process_user_request demoToday "2026-10-12T09:00:00" demoHappyOracle demoDbMissing 1 "Hello" "s1" =
      (Outcome.errorOut "Unable to retrieve user information. Please try again.",
       [Event.retrieveUser 1]) :=
  ⟨rfl,
   (context_missing_abort demoToday "2026-10-12T09:00:00" demoHappyOracle demoDbMissing 1
     "Hello" "s1" rfl).1⟩

/-- Claim C7: when a done poll's raw field is not parseable as a transcript,
or parses but contains no assistant turn, the agent caller returns the raw
payload itself as plain text, trimmed, rather than raising an error. -/
theorem parse_failure_fallback (parse : String → Option (List Turn))
    (agent_type : String) (env : ArkEnv) (aid raw : String) (r : RespEntry)
    (rest : List RespEntry)
    (hid : env.agentId = some aid)
    (hsubmit : env.submitStatus = 200 ∨ env.submitStatus = 201)
    (hpoll : env.polls 0 = ⟨200, some "done", r :: rest⟩)
    (hraw : r.raw = some raw) (hne : raw ≠ "")
    (hpf : parse raw = none ∨ ∃ ts, parse raw = some ts ∧
      ts.find? (fun m => m.role == some "assistant") = none) :
    (ark_caller parse agent_type env).result = pyStrip raw := by
  rw [ark_caller_first_poll_done parse agent_type env aid (r :: rest) hid hsubmit hpoll]
  rcases hpf with hnone | ⟨ts, hts, hfind⟩
  · simp [extractDone, hraw, hne, hnone]
  · simp [extractDone, hraw, hne, hts, hfind]

/-- Witness for C7: an unparseable plain-text payload comes back trimmed. -/
theorem parse_failure_fallback_witness :
    demoArkEnvPlain.polls 0 = ⟨200, some "done", [⟨some " plain text ", none⟩]⟩ ∧
    (ark_caller (fun _ => none) "financial" demoArkEnvPlain).result = pyStrip " plain text " ∧
    (ark_caller (fun _ => none) "financial" demoArkEnvPlain).result = "plain text" :=
  ⟨rfl,
   parse_failure_fallback (fun _ => none) "financial" demoArkEnvPlain "financial-coach-agent"
     " plain text " ⟨some " plain text ", none⟩ [] rfl (Or.inr rfl) rfl rfl (by decide) (Or.inl rfl),
   by decide⟩

/-- Claim C8: a query-creation response whose status is not 2xx makes the
agent caller return the creation-error text immediately: one submit, no retry
of the submit, and zero polls. -/
theorem submit_rejection (parse : String → Option (List Turn)) (agent_type : String)
    (env : ArkEnv) (aid : String)
    (hid : env.agentId = some aid)
    (h2xx : ¬ (200 ≤ env.submitStatus ∧ env.submitStatus ≤ 299)) :
    ark_caller parse agent_type env =
      ⟨"Error creating query: " ++ toString env.submitStatus, 1, 0, []⟩ := by
  simp only [ark_caller, hid]
  rw [if_neg (by omega)]

/-- Witness for C8: an HTTP 500 submit is rejected without polling. -/
theorem submit_rejection_witness :
    demoArkEnvRejected.agentId = some "health-companion-agent" ∧
    ¬ (200 ≤ demoArkEnvRejected.submitStatus ∧ demoArkEnvRejected.submitStatus ≤ 299) ∧
    ark_caller (fun _ => none) "health" demoArkEnvRejected =
      ⟨"Error creating query: " ++ toString demoArkEnvRejected.submitStatus, 1, 0, []⟩ :=
  ⟨rfl, by decide,
   submit_rejection (fun _ => none) "health" demoArkEnvRejected "health-companion-agent"
     rfl (by decide)⟩

/-- Claim C9: every submitted query polls at most 40 times, sleeping per the
schedule (1000 ms for the first 5 attempts, 1500 ms thereafter, as sleepAt
states), terminates at the first status-200 poll whose phase is done, failed
or cancelled with the corresponding verdict, and returns the timeout text
after exhausting all 40 attempts without a terminal poll; the call always
terminates. -/
theorem bounded_polling_termination (parse : String → Option (List Turn))
    (agent_type : String) (env : ArkEnv) (aid : String)
    (hid : env.agentId = some aid)
    (hsubmit : env.submitStatus = 200 ∨ env.submitStatus = 201) :
    (ark_caller parse agent_type env).pollCount ≤ 40 ∧
    (ark_caller parse agent_type env).sleeps =
      (List.range (ark_caller parse agent_type env).pollCount).map sleepAt ∧
    (∀ i, firstTerminal env.polls 40 = some i →
      (ark_caller parse agent_type env).pollCount = i + 1 ∧
      (ark_caller parse agent_type env).result = pollVerdict parse (env.polls i)) ∧
    (firstTerminal env.polls 40 = none →
      (ark_caller parse agent_type env).pollCount = 40 ∧
      (ark_caller parse agent_type env).result = "Agent timeout - please try again.") := by
  rw [ark_caller_accepted parse agent_type env aid hid hsubmit]
  dsimp only
  obtain ⟨f1, f2⟩ := arkPollLoop_find parse env.polls 40 0
  refine ⟨arkPollLoop_count_le parse env.polls 40 0, ?_, ?_, ?_⟩
  · rw [List.range_eq_range']
    exact arkPollLoop_sleeps parse env.polls 40 0
  · intro i hi
    simp only [firstTerminal, List.range_eq_range'] at hi
    obtain ⟨hc, hr⟩ := f1 i hi
    exact ⟨by omega, hr⟩
  · intro hn
    simp only [firstTerminal, List.range_eq_range'] at hn
    exact f2 hn

/-- Witness for C9: a gateway that never leaves the running phase exhausts
exactly 40 polls and times out. -/
theorem bounded_polling_termination_witness :
    demoArkEnvRunning.agentId = some "health-companion-agent" ∧
    (demoArkEnvRunning.submitStatus = 200 ∨ demoArkEnvRunning.submitStatus = 201) ∧
    ((ark_caller (fun _ => none) "health" demoArkEnvRunning).pollCount ≤ 40 ∧
     (ark_caller (fun _ => none) "health" demoArkEnvRunning).sleeps =
       (List.range (ark_caller (fun _ => none) "health" demoArkEnvRunning).pollCount).map sleepAt ∧
     (∀ i, firstTerminal demoArkEnvRunning.polls 40 = some i →
       (ark_caller (fun _ => none) "health" demoArkEnvRunning).pollCount = i + 1 ∧
       (ark_caller (fun _ => none) "health" demoArkEnvRunning).result =
         pollVerdict (fun _ => none) (demoArkEnvRunning.polls i)) ∧
     (firstTerminal demoArkEnvRunning.polls 40 = none →
       (ark_caller (fun _ => none) "health" demoArkEnvRunning).pollCount = 40 ∧
       (ark_caller (fun _ => none) "health" demoArkEnvRunning).result =
         "Agent timeout - please try again.")) :=
  ⟨rfl, Or.inl rfl,
   bounded_polling_termination (fun _ => none) "health" demoArkEnvRunning
     "health-companion-agent" rfl (Or.inl rfl)⟩

/-- Claim C10 (implicit): with the shipped SQLiteDBManager, whose
get_connection is a contextmanager generator so the returned object has no
cursor method and the AttributeError is swallowed, _retrieve_user_data
returns None for every user_id, and consequently process_user_request
returns the error outcome for every request, making the blocked and success
paths unreachable with this store. -/
theorem shipped_store_always_errors (today : PDate) (nowIso : String)
    (oracle : AgentOracle) (db : DBManager) (user_id : Int) (up sid : String)
    (hship : db.connKind = SQLiteDBManager_connKind) :
    retrieve_user_data today db user_id = none ∧
    process_user_request today nowIso oracle db user_id up sid =
      (Outcome.errorOut "Unable to retrieve user information. Please try again.",
       [Event.retrieveUser user_id]) := by
  have hr : retrieve_user_data today db user_id = none := by
    unfold retrieve_user_data
    rw [hship]
    simp only [SQLiteDBManager_connKind]
  exact ⟨hr, by simp only [process_user_request, hr]⟩

/-- Witness for C10: the shipped store errors even for a user whose row and
profile exist. -/
theorem shipped_store_always_errors_witness :
    demoDbShipped.connKind = SQLiteDBManager_connKind ∧
    demoDbShipped.userRow 1 = some demoRow ∧
    retrieve_user_data demoToday demoDbShipped 1 = none ∧
    process_user_request demoToday "2026-10-12T09:00:00" demoHappyOracle demoDbShipped 1 "Hello" "s1" =
      (Outcome.errorOut "Unable to retrieve user information. Please try again.",
       [Event.retrieveUser 1]) := by
  refine ⟨rfl, rfl, ?_, ?_⟩
  · exact (shipped_store_always_errors demoToday "2026-10-12T09:00:00" demoHappyOracle
      demoDbShipped 1 "Hello" "s1" rfl).1
  · exact (shipped_store_always_errors demoToday "2026-10-12T09:00:00" demoHappyOracle
      demoDbShipped 1 "Hello" "s1" rfl).2
